import Mathlib

/-
Shallow embedding of the OvenMediaEngine publisher Application core:
  src/projects/base/publisher/application.cpp   (namespace pub)
  src/projects/config/items/cmaf_publisher.h    (cfg::CmafPublisher)

The Application state (`_streams`, the three queues, `_queue_event`,
`_stop_thread_flag`, the worker thread, the last-timestamp metrics) is a
record; every member function becomes a pure function on that record.
Observable interactions (subclass hook calls, stream sends, lock and
semaphore operations) are recorded as event traces.  The C++ `double`
timestamp arithmetic is modelled over rationals; `ov::Semaphore`
(`_queue_event`, not part of the excerpt) is modelled as a counting
semaphore: `Notify` increments a count, `Wait` decrements it and blocks
exactly when it is zero.
-/

namespace Pub

/-- Rational stand-in for the C++ `double` returned by
`GetTimeBase().GetExpr()`. -/
abbrev TimebaseExpr := Rat

/-- `MediaPacket` (external collaborator): presentation timestamp and track id. -/
structure MediaPacket where
  pts : Int
  track_id : Nat

/-- `info::Stream` descriptor (external collaborator): id, name and the
per-track timebase expression used by `_last_video_ts_ms`/`_last_audio_ts_ms`. -/
structure StreamInfo where
  id : Nat
  name : String
  trackExpr : Nat → TimebaseExpr

/-- `pub::Stream` handle produced by the subclass `CreateStream` hook.
`tag` distinguishes distinct handles (distinct C++ objects). -/
structure Stream where
  id : Nat
  name : String
  tag : Nat
deriving DecidableEq

/-- `info::Session` reference carried by an incoming packet. -/
structure SessionInfo where
  tag : Nat

/-- `Application::VideoStreamData`: `{_stream, _media_packet}`; either
pointer may be null, which the worker checks before routing. -/
structure VideoStreamData where
  stream : Option StreamInfo
  media_packet : Option MediaPacket

/-- `Application::AudioStreamData`: same shape as `VideoStreamData`. -/
structure AudioStreamData where
  stream : Option StreamInfo
  media_packet : Option MediaPacket

/-- `Application::IncomingPacket`: `{_session_info, _data}`. -/
structure IncomingPacket where
  session_info : SessionInfo
  data : List Nat

/-- Observable actions of the Application, listed in program order in
each operation's trace. -/
inductive Event where
  | lockAcquire
  | pushItem
  | lockRelease
  | notifyEvent
  | sendVideo (streamTag : Nat)
  | sendAudio (streamTag : Nat)
  | packetReceived (sessionTag : Nat)
  | deleteHook (streamId : Nat)
  | eraseEntry (streamId : Nat)
  | streamStop (streamTag : Nat)
deriving DecidableEq

/-- State of one `pub::Application`.  `queue_event` is the counting
semaphore's count; `worker_contexts` counts worker execution contexts
spawned by `Start` and not yet joined by `Stop`. -/
structure AppState where
  streams : List (Nat × Stream)
  video_stream_queue : List VideoStreamData
  audio_stream_queue : List AudioStreamData
  incoming_packet_queue : List IncomingPacket
  queue_event : Nat
  stop_thread_flag : Bool
  worker_contexts : Nat
  last_video_ts_ms : Rat
  last_audio_ts_ms : Rat

/-- `std::map<uint32_t, shared_ptr<Stream>>::find`: first (unique) key match. -/
def mapFind : List (Nat × Stream) → Nat → Option Stream
  | [], _ => none
  | (k, v) :: rest, key => if k = key then some v else mapFind rest key

/-- `_streams[key] = stream`: `std::map` `operator[]` assignment — replaces
the mapped value if the key is present, otherwise adds a new entry. -/
def mapInsert : List (Nat × Stream) → Nat → Stream → List (Nat × Stream)
  | [], key, stream => [(key, stream)]
  | (k, v) :: rest, key, stream =>
    if k = key then (key, stream) :: rest else (k, v) :: mapInsert rest key stream

/-- `_streams.erase(key)`: removes the entry with that key (keys are
unique in a `std::map`, so removing every match is the same operation). -/
def mapErase (m : List (Nat × Stream)) (key : Nat) : List (Nat × Stream) :=
  m.filter (fun p => p.1 != key)

/-- `cfg::CmafPublisher` configuration item; field defaults are the C++
member initializers (`_thread_count = 4`, used when `<ThreadCount>` is
absent from the configuration). -/
structure CmafPublisher where
  segment_count : Int := 3
  segment_duration : Int := 5
  thread_count : Int := 4

/-- `CmafPublisher::GetThreadCount`: `_thread_count > 0 ? _thread_count : 1`. -/
def CmafPublisher.GetThreadCount (c : CmafPublisher) : Int :=
  if c.thread_count > 0 then c.thread_count else 1

/-- State established by the `Application` constructor: stop flag false,
all containers empty, no worker thread yet. -/
def initState : AppState :=
  { streams := []
    video_stream_queue := []
    audio_stream_queue := []
    incoming_packet_queue := []
    queue_event := 0
    stop_thread_flag := false
    worker_contexts := 0
    last_video_ts_ms := 0
    last_audio_ts_ms := 0 }

/-- `Application::Start`: clears `_stop_thread_flag` and unconditionally
constructs a new worker thread (`_worker_thread = std::thread(...)`),
then returns `true`.  There is no already-running guard in the source;
`worker_contexts` counts the spawned, un-joined execution contexts.
(In C++, assigning over a still-joinable `std::thread` additionally
calls `std::terminate`, so a second `Start` is in no sense a no-op.) -/
def Start (s : AppState) : Bool × AppState :=
  (true, { s with stop_thread_flag := false, worker_contexts := s.worker_contexts + 1 })

/-- `Application::Stop`: if the stop flag is already set, returns `true`
immediately (no notify, no join); otherwise sets the flag, notifies the
semaphore once, joins the worker thread (so no worker context remains
when it returns) and returns `true`. -/
def Stop (s : AppState) : Bool × AppState :=
  if s.stop_thread_flag then (true, s)
  else
    (true,
     { s with
         stop_thread_flag := true
         queue_event := s.queue_event + 1
         worker_contexts := 0 })

/-- `Application::OnCreateStream`: reads the worker-count policy from the
configuration, calls the subclass `CreateStream` hook; on null returns
`false` with no mutation, otherwise stores the stream under
`_streams[info->GetId()]` (an `operator[]` assignment) and returns `true`. -/
def OnCreateStream (cfg : CmafPublisher) (createHook : StreamInfo → Int → Option Stream)
    (info : StreamInfo) (s : AppState) : Bool × AppState :=
  let worker_count := cfg.GetThreadCount
  match createHook info worker_count with
  | none => (false, s)
  | some stream => (true, { s with streams := mapInsert s.streams info.id stream })

/-- `Application::OnDeleteStream`: looks the id up; if absent, logs and
returns `false` unchanged.  Otherwise it releases the lock, calls the
subclass `DeleteStream` hook; on hook failure returns `false` with the
registry untouched; on success re-locks, erases the entry, then calls the
stream's own `Stop()`.  The trace records the hook call, the erase and
the stream stop in program order. -/
def OnDeleteStream (deleteHook : StreamInfo → Bool) (info : StreamInfo) (s : AppState) :
    Bool × AppState × List Event :=
  match mapFind s.streams info.id with
  | none => (false, s, [])
  | some stream =>
    if deleteHook info then
      (true, { s with streams := mapErase s.streams info.id },
        [Event.deleteHook info.id, Event.eraseEntry info.id, Event.streamStop stream.tag])
    else
      (false, s, [Event.deleteHook info.id])

/-- `Application::OnSendVideoFrame`: wraps the arguments in a
`VideoStreamData`, pushes it under the video queue lock, updates
`_last_video_ts_ms` (pts · timebase-expr · 1000), unlocks, then notifies
the semaphore and returns `true`. -/
def OnSendVideoFrame (stream : StreamInfo) (media_packet : MediaPacket) (s : AppState) :
    Bool × AppState × List Event :=
  let data : VideoStreamData := { stream := some stream, media_packet := some media_packet }
  (true,
   { s with
       video_stream_queue := s.video_stream_queue ++ [data]
       last_video_ts_ms :=
         (media_packet.pts : Rat) * stream.trackExpr media_packet.track_id * 1000
       queue_event := s.queue_event + 1 },
   [Event.lockAcquire, Event.pushItem, Event.lockRelease, Event.notifyEvent])

/-- `Application::OnSendAudioFrame`: audio counterpart of
`OnSendVideoFrame`, identical shape. -/
def OnSendAudioFrame (stream : StreamInfo) (media_packet : MediaPacket) (s : AppState) :
    Bool × AppState × List Event :=
  let data : AudioStreamData := { stream := some stream, media_packet := some media_packet }
  (true,
   { s with
       audio_stream_queue := s.audio_stream_queue ++ [data]
       last_audio_ts_ms :=
         (media_packet.pts : Rat) * stream.trackExpr media_packet.track_id * 1000
       queue_event := s.queue_event + 1 },
   [Event.lockAcquire, Event.pushItem, Event.lockRelease, Event.notifyEvent])

/-- `Application::PushIncomingPacket`: pushes under the packet queue
lock, unlocks, notifies the semaphore, returns `true`. -/
def PushIncomingPacket (session_info : SessionInfo) (data : List Nat) (s : AppState) :
    Bool × AppState × List Event :=
  let packet : IncomingPacket := { session_info := session_info, data := data }
  (true,
   { s with
       incoming_packet_queue := s.incoming_packet_queue ++ [packet]
       queue_event := s.queue_event + 1 },
   [Event.lockAcquire, Event.pushItem, Event.lockRelease, Event.notifyEvent])

/-- `Application::GetStream(uint32_t)`: registry lookup by id under the
reader lock. -/
def GetStream (s : AppState) (stream_id : Nat) : Option Stream :=
  mapFind s.streams stream_id

/-- Helper for `GetStream(ov::String)`: first entry whose stream name
matches, in container iteration order. -/
def findByName : List (Nat × Stream) → String → Option Stream
  | [], _ => none
  | (_, v) :: rest, stream_name =>
    if v.name = stream_name then some v else findByName rest stream_name

/-- `Application::GetStream(ov::String)`: linear scan for the first
stream with the given name. -/
def GetStreamByName (s : AppState) (stream_name : String) : Option Stream :=
  findByName s.streams stream_name

/-- `Application::PopVideoStreamData`: under the queue lock, returns null
on empty, else removes and returns the front item. -/
def PopVideoStreamData (s : AppState) : Option VideoStreamData × AppState :=
  match s.video_stream_queue with
  | [] => (none, s)
  | data :: rest => (some data, { s with video_stream_queue := rest })

/-- `Application::PopAudioStreamData`: audio counterpart. -/
def PopAudioStreamData (s : AppState) : Option AudioStreamData × AppState :=
  match s.audio_stream_queue with
  | [] => (none, s)
  | data :: rest => (some data, { s with audio_stream_queue := rest })

/-- `Application::PopIncomingPacket`: packet counterpart. -/
def PopIncomingPacket (s : AppState) : Option IncomingPacket × AppState :=
  match s.incoming_packet_queue with
  | [] => (none, s)
  | packet :: rest => (some packet, { s with incoming_packet_queue := rest })

/-- `Application::SendVideoFrame`: looks the destination up by id; if it
is gone, returns silently (frame dropped, nothing signalled); otherwise
forwards the packet to the stream (`stream->SendVideoFrame`), observable
as a `sendVideo` event. -/
def SendVideoFrame (s : AppState) (stream_info : StreamInfo) (media_packet : MediaPacket) :
    List Event :=
  match GetStream s stream_info.id with
  | none => []
  | some stream => [Event.sendVideo stream.tag]

/-- `Application::SendAudioFrame`: audio counterpart of `SendVideoFrame`. -/
def SendAudioFrame (s : AppState) (stream_info : StreamInfo) (media_packet : MediaPacket) :
    List Event :=
  match GetStream s stream_info.id with
  | none => []
  | some stream => [Event.sendAudio stream.tag]

/-- `Application::OnPacketReceived`: goes straight to the session
(`session->OnPacketReceived`), bypassing the stream registry. -/
def OnPacketReceived (session_info : SessionInfo) (data : List Nat) : List Event :=
  [Event.packetReceived session_info.tag]

/-- Body of one `Application::WorkerThread` loop iteration after the
`_queue_event.Wait()`: drain at most one item from each of the three
queues; route a frame only when the item and its stream and packet
pointers are all non-null; deliver a packet directly to its session.
(The periodic queue-depth log is observability only and is not
modelled.) -/
def WorkerIteration (s : AppState) : AppState × List Event :=
  let pv := PopVideoStreamData s
  let video_events :=
    match pv.1 with
    | some video_data =>
      match video_data.stream, video_data.media_packet with
      | some info, some p => SendVideoFrame pv.2 info p
      | _, _ => []
    | none => []
  let pa := PopAudioStreamData pv.2
  let audio_events :=
    match pa.1 with
    | some audio_data =>
      match audio_data.stream, audio_data.media_packet with
      | some info, some p => SendAudioFrame pa.2 info p
      | _, _ => []
    | none => []
  let pp := PopIncomingPacket pa.2
  let packet_events :=
    match pp.1 with
    | some packet => OnPacketReceived packet.session_info packet.data
    | none => []
  (pp.2, video_events ++ audio_events ++ packet_events)

/-- One full dispatch-loop cycle: `_queue_event.Wait()` consumes one
semaphore count (the wait blocks exactly when the count is zero, so a
non-blocking cycle is enabled only at positive count) followed by the
drain/route body. -/
def LoopIteration (s : AppState) : AppState × List Event :=
  WorkerIteration { s with queue_event := s.queue_event - 1 }

/-- Events produced by the video-drain step of one worker iteration, as
a function of the pre-iteration state (the pops do not change the
registry that `SendVideoFrame` consults). -/
def videoDrainEvents (s : AppState) : List Event :=
  match s.video_stream_queue with
  | [] => []
  | video_data :: _ =>
    match video_data.stream, video_data.media_packet with
    | some info, some p => SendVideoFrame s info p
    | _, _ => []

/-- Events produced by the audio-drain step of one worker iteration. -/
def audioDrainEvents (s : AppState) : List Event :=
  match s.audio_stream_queue with
  | [] => []
  | audio_data :: _ =>
    match audio_data.stream, audio_data.media_packet with
    | some info, some p => SendAudioFrame s info p
    | _, _ => []

/-- Events produced by the packet-drain step of one worker iteration. -/
def packetDrainEvents (s : AppState) : List Event :=
  match s.incoming_packet_queue with
  | [] => []
  | packet :: _ => OnPacketReceived packet.session_info packet.data

/-- One interleaving step of the whole system: any producer call, any
lifecycle call, or one worker loop cycle (enabled only when the
semaphore count is positive — a zero count means the worker is blocked
in `Wait`). -/
inductive Step : AppState → AppState → Prop where
  | sendVideoFrame (s : AppState) (info : StreamInfo) (p : MediaPacket) :
      Step s (OnSendVideoFrame info p s).2.1
  | sendAudioFrame (s : AppState) (info : StreamInfo) (p : MediaPacket) :
      Step s (OnSendAudioFrame info p s).2.1
  | pushPacket (s : AppState) (sess : SessionInfo) (d : List Nat) :
      Step s (PushIncomingPacket sess d s).2.1
  | createStream (s : AppState) (cfg : CmafPublisher)
      (hook : StreamInfo → Int → Option Stream) (info : StreamInfo) :
      Step s (OnCreateStream cfg hook info s).2
  | deleteStream (s : AppState) (hook : StreamInfo → Bool) (info : StreamInfo) :
      Step s (OnDeleteStream hook info s).2.1
  | startApp (s : AppState) : Step s (Start s).2
  | stopApp (s : AppState) : Step s (Stop s).2
  | loopIter (s : AppState) (h : 0 < s.queue_event) : Step s (LoopIteration s).1

/-- States reachable from the freshly constructed Application. -/
def Reachable (s : AppState) : Prop :=
  Relation.ReflTransGen Step initState s

/-- Total number of items pending across the three queues. -/
def totalItems (s : AppState) : Nat :=
  s.video_stream_queue.length + s.audio_stream_queue.length + s.incoming_packet_queue.length

/-- Constant-1 timebase expression for concrete examples. -/
def tbUnit : Nat → TimebaseExpr := fun _ => 1

/-- Concrete stream descriptor with id 7. -/
def infoA : StreamInfo := { id := 7, name := "a", trackExpr := tbUnit }

/-- Concrete media packet. -/
def packetA : MediaPacket := { pts := 0, track_id := 0 }

/-- Concrete stream handle (first object created for id 7). -/
def streamA : Stream := { id := 7, name := "a", tag := 1 }

/-- Concrete stream handle (second, distinct object for the same id 7). -/
def streamB : Stream := { id := 7, name := "a", tag := 2 }

/-- Default-constructed configuration. -/
def cfgDefault : CmafPublisher := {}

/-- Creation hook that always constructs `streamB`. -/
def hookB : StreamInfo → Int → Option Stream := fun _ _ => some streamB

/-- Creation hook that always fails (returns null). -/
def hookNone : StreamInfo → Int → Option Stream := fun _ _ => none

/-- Deletion hook that always succeeds. -/
def hookTrue : StreamInfo → Bool := fun _ => true

/-- Deletion hook that always fails. -/
def hookFalse : StreamInfo → Bool := fun _ => false

/-- Concrete session reference. -/
def sessA : SessionInfo := { tag := 3 }

/-- State whose registry already holds `streamA` under id 7. -/
def regState : AppState := { initState with streams := [(7, streamA)] }

/-- State with one live worker context (worker running, flag clear). -/
def runningState : AppState := { initState with worker_contexts := 1 }

/-- State whose stop flag is already set. -/
def stoppedState : AppState := { initState with stop_thread_flag := true }

/-- State right after one video frame was enqueued into the fresh
Application: one pending item, semaphore count one. -/
def burstState : AppState := (OnSendVideoFrame infoA packetA initState).2.1

lemma find_insert_self (m : List (Nat × Stream)) (key : Nat) (st : Stream) :
    mapFind (mapInsert m key st) key = some st := by
  induction m with
  | nil => simp [mapInsert, mapFind]
  | cons head rest ih =>
    obtain ⟨k, v⟩ := head
    by_cases h : k = key <;> simp [mapInsert, mapFind, h, ih]

lemma find_erase_self (m : List (Nat × Stream)) (key : Nat) :
    mapFind (mapErase m key) key = none := by
  induction m with
  | nil => rfl
  | cons head rest ih =>
    obtain ⟨k, v⟩ := head
    by_cases h : k = key <;>
      simp [mapErase, List.filter_cons, h, mapFind] <;>
      simpa [mapErase] using ih

lemma worker_fst (s : AppState) :
    (WorkerIteration s).1 =
      { s with
          video_stream_queue := s.video_stream_queue.tail
          audio_stream_queue := s.audio_stream_queue.tail
          incoming_packet_queue := s.incoming_packet_queue.tail } := by
  obtain ⟨str, vq, aq, pq, qe, fl, wc, lv, la⟩ := s
  cases vq <;> cases aq <;> cases pq <;> rfl

lemma worker_events (s : AppState) :
    (WorkerIteration s).2 = videoDrainEvents s ++ audioDrainEvents s ++ packetDrainEvents s := by
  obtain ⟨str, vq, aq, pq, qe, fl, wc, lv, la⟩ := s
  cases vq <;> cases aq <;> cases pq <;> rfl

lemma sendVideo_not_mem_audioDrain (s : AppState) (t : Nat) :
    Event.sendVideo t ∉ audioDrainEvents s := by
  intro hmem
  unfold audioDrainEvents at hmem
  split at hmem
  · simp at hmem
  · split at hmem
    · unfold SendAudioFrame at hmem
      split at hmem <;> simp at hmem
    · simp at hmem

lemma sendVideo_not_mem_packetDrain (s : AppState) (t : Nat) :
    Event.sendVideo t ∉ packetDrainEvents s := by
  intro hmem
  unfold packetDrainEvents at hmem
  split at hmem
  · simp at hmem
  · simp [OnPacketReceived] at hmem

lemma sendAudio_not_mem_videoDrain (s : AppState) (t : Nat) :
    Event.sendAudio t ∉ videoDrainEvents s := by
  intro hmem
  unfold videoDrainEvents at hmem
  split at hmem
  · simp at hmem
  · split at hmem
    · unfold SendVideoFrame at hmem
      split at hmem <;> simp at hmem
    · simp at hmem

lemma sendAudio_not_mem_packetDrain (s : AppState) (t : Nat) :
    Event.sendAudio t ∉ packetDrainEvents s := by
  intro hmem
  unfold packetDrainEvents at hmem
  split at hmem
  · simp at hmem
  · simp [OnPacketReceived] at hmem

lemma sendVideo_mem_videoDrain_iff (s : AppState) (t : Nat) :
    Event.sendVideo t ∈ videoDrainEvents s ↔
      ∃ d rest info p st, s.video_stream_queue = d :: rest ∧ d.stream = some info ∧
        d.media_packet = some p ∧ GetStream s info.id = some st ∧ t = st.tag := by
  unfold videoDrainEvents
  cases hvq : s.video_stream_queue with
  | nil => simp
  | cons d rest =>
    cases hs : d.stream with
    | none => simp [hs]
    | some info =>
      cases hp : d.media_packet with
      | none => simp [hs, hp]
      | some p =>
        unfold SendVideoFrame
        cases hg : GetStream s info.id with
        | none => simp [hs, hp, hg]
        | some st => simp [hs, hp, hg, eq_comm]

lemma sendAudio_mem_audioDrain_iff (s : AppState) (t : Nat) :
    Event.sendAudio t ∈ audioDrainEvents s ↔
      ∃ d rest info p st, s.audio_stream_queue = d :: rest ∧ d.stream = some info ∧
        d.media_packet = some p ∧ GetStream s info.id = some st ∧ t = st.tag := by
  unfold audioDrainEvents
  cases hvq : s.audio_stream_queue with
  | nil => simp
  | cons d rest =>
    cases hs : d.stream with
    | none => simp [hs]
    | some info =>
      cases hp : d.media_packet with
      | none => simp [hs, hp]
      | some p =>
        unfold SendAudioFrame
        cases hg : GetStream s info.id with
        | none => simp [hs, hp, hg]
        | some st => simp [hs, hp, hg, eq_comm]

lemma step_preserves_inv {s t : AppState} (hst : Step s t)
    (h : totalItems s ≤ s.queue_event) : totalItems t ≤ t.queue_event := by
  cases hst with
  | sendVideoFrame info p =>
    simp [OnSendVideoFrame, totalItems] at h ⊢; omega
  | sendAudioFrame info p =>
    simp [OnSendAudioFrame, totalItems] at h ⊢; omega
  | pushPacket sess d =>
    simp [PushIncomingPacket, totalItems] at h ⊢; omega
  | createStream cfg hook info =>
    cases hh : hook info cfg.GetThreadCount <;>
      simpa [OnCreateStream, hh, totalItems] using h
  | deleteStream hook info =>
    cases hm : mapFind s.streams info.id with
    | none => simpa [OnDeleteStream, hm, totalItems] using h
    | some st =>
      cases hh : hook info <;> simpa [OnDeleteStream, hm, hh, totalItems] using h
  | startApp => simpa [Start, totalItems] using h
  | stopApp =>
    by_cases hf : s.stop_thread_flag <;>
      simp [Stop, hf, totalItems] at h ⊢ <;> omega
  | loopIter hpos =>
    rw [LoopIteration, worker_fst]
    simp only [totalItems, List.length_tail] at h ⊢
    omega

lemma reachable_inv {s : AppState} (h : Reachable s) : totalItems s ≤ s.queue_event := by
  induction h with
  | refl => simp [initState, totalItems]
  | tail _ hstep ih => exact step_preserves_inv hstep ih

/-- C1 (counterexample): with `streamA` already registered under id 7,
an `OnCreateStream` call whose creation hook succeeds (producing the
distinct handle `streamB`) does not fail with a duplicate-stream error:
it returns `true`, and the pre-existing entry is not left in place but
replaced by `streamB`. -/
theorem onCreateStream_duplicate_cex :
    GetStream regState 7 = some streamA ∧ streamA ≠ streamB ∧
    (OnCreateStream cfgDefault hookB infoA regState).1 = true ∧
    GetStream (OnCreateStream cfgDefault hookB infoA regState).2 7 = some streamB :=
  ⟨rfl, by decide, rfl, rfl⟩

/-- C1 (amended): whenever the subclass creation hook succeeds,
`OnCreateStream` returns success and maps the id to the newly created
stream — overwriting any pre-existing entry for that id rather than
failing with a duplicate-stream error (so of two same-id calls whose
hooks succeed, both succeed and the later one replaces the earlier
one's registry entry). -/
theorem onCreateStream_overwrites (cfg : CmafPublisher)
    (createHook : StreamInfo → Int → Option Stream) (info : StreamInfo)
    (s : AppState) (st : Stream) (h : createHook info cfg.GetThreadCount = some st) :
    (OnCreateStream cfg createHook info s).1 = true ∧
    GetStream (OnCreateStream cfg createHook info s).2 info.id = some st := by
  simp [OnCreateStream, h, GetStream, find_insert_self]

/-- C1 (amended, witness): concrete instantiation on a registry already
holding id 7. -/
theorem onCreateStream_overwrites_witness :
    hookB infoA cfgDefault.GetThreadCount = some streamB ∧
    (OnCreateStream cfgDefault hookB infoA regState).1 = true ∧
    GetStream (OnCreateStream cfgDefault hookB infoA regState).2 infoA.id = some streamB :=
  ⟨rfl, (onCreateStream_overwrites cfgDefault hookB infoA regState streamB rfl).1,
    (onCreateStream_overwrites cfgDefault hookB infoA regState streamB rfl).2⟩

/-- C2 (counterexample): calling `Start` while a worker execution
context is already live is not a no-op: a second worker context is
spawned. -/
theorem start_while_running_spawns_cex :
    runningState.worker_contexts = 1 ∧ runningState.stop_thread_flag = false ∧
    (Start runningState).2.worker_contexts = 2 :=
  ⟨rfl, rfl, rfl⟩

/-- C2 (amended): `Start` always returns success, clears the stop flag
and spawns one more worker execution context — also when one is already
running (the source has no already-running guard, so `Start` is not
idempotent while running). -/
theorem start_always_spawns (s : AppState) :
    (Start s).1 = true ∧ (Start s).2.worker_contexts = s.worker_contexts + 1 ∧
    (Start s).2.stop_thread_flag = false :=
  ⟨rfl, rfl, rfl⟩

/-- C3 (counterexample): the loop can block although the previous
iteration drained an item: from the reachable state with exactly one
enqueued video frame (semaphore count one), the next cycle consumes the
count and drains the item, after which the count is zero — so the
following `Wait` blocks even though the previous iteration drained
something. -/
theorem wait_blocks_after_drain_cex :
    0 < totalItems burstState ∧
    totalItems (LoopIteration burstState).1 = 0 ∧
    (LoopIteration burstState).1.queue_event = 0 :=
  ⟨by decide, by decide, by decide⟩

/-- C3 (amended): in every reachable state, whenever any of the three
queues is non-empty the Wake Event count is positive, so the `Wait` at
the top of the next loop iteration does not block: the loop never
sleeps while work is pending, and a burst of enqueues before a wake is
fully drained without further signals (it blocks only when all queues
are empty). -/
theorem no_block_while_queue_nonempty (s : AppState) (h : Reachable s)
    (hq : 0 < totalItems s) : 0 < s.queue_event :=
  lt_of_lt_of_le hq (reachable_inv h)

/-- C3 (amended, witness): the state with one enqueued video frame is
reachable, has a non-empty queue, and indeed a positive count. -/
theorem no_block_while_queue_nonempty_witness :
    0 < totalItems burstState ∧ 0 < burstState.queue_event :=
  ⟨by decide,
   no_block_while_queue_nonempty burstState
     (Relation.ReflTransGen.single (Step.sendVideoFrame initState infoA packetA))
     (by decide)⟩

/-- C4: when the id is present, `OnDeleteStream` invokes the subclass
deletion hook first, before any registry mutation; only on hook success
is the entry erased, and the stream's own `Stop` runs only after the
erase — the success trace is exactly hook, erase, stop, and on hook
failure nothing is erased and no stop happens. -/
theorem onDeleteStream_ordering (deleteHook : StreamInfo → Bool) (info : StreamInfo)
    (s : AppState) (st : Stream) (h : mapFind s.streams info.id = some st) :
    (deleteHook info = true →
      OnDeleteStream deleteHook info s =
        (true, { s with streams := mapErase s.streams info.id },
         [Event.deleteHook info.id, Event.eraseEntry info.id, Event.streamStop st.tag])) ∧
    (deleteHook info = false →
      OnDeleteStream deleteHook info s = (false, s, [Event.deleteHook info.id])) := by
  constructor <;> intro hh <;> simp [OnDeleteStream, h, hh]

/-- C4 (witness): concrete deletion of the registered stream id 7 with
a succeeding hook. -/
theorem onDeleteStream_ordering_witness :
    mapFind regState.streams infoA.id = some streamA ∧
    OnDeleteStream hookTrue infoA regState =
      (true, { regState with streams := mapErase regState.streams infoA.id },
       [Event.deleteHook infoA.id, Event.eraseEntry infoA.id, Event.streamStop streamA.tag]) :=
  ⟨rfl, (onDeleteStream_ordering hookTrue infoA regState streamA rfl).1 rfl⟩

/-- C5: both delete error paths return failure with the state left
completely unchanged (id absent: stream-not-found; hook failure: the
entry is not removed), and a create whose hook returns null returns
failure with the state unchanged. -/
theorem error_leaves_state_unchanged (cfg : CmafPublisher)
    (createHook : StreamInfo → Int → Option Stream) (deleteHook : StreamInfo → Bool)
    (info : StreamInfo) (s : AppState) :
    (mapFind s.streams info.id = none →
      OnDeleteStream deleteHook info s = (false, s, [])) ∧
    (∀ st, mapFind s.streams info.id = some st → deleteHook info = false →
      OnDeleteStream deleteHook info s = (false, s, [Event.deleteHook info.id])) ∧
    (createHook info cfg.GetThreadCount = none →
      OnCreateStream cfg createHook info s = (false, s)) := by
  refine ⟨?_, ?_, ?_⟩
  · intro hm; simp [OnDeleteStream, hm]
  · intro st hm hh; simp [OnDeleteStream, hm, hh]
  · intro hc; simp [OnCreateStream, hc]

/-- C5 (witness): not-found on the empty registry; failing delete hook
on the registered id 7; failing create hook. -/
theorem error_leaves_state_unchanged_witness :
    OnDeleteStream hookTrue infoA initState = (false, initState, []) ∧
    OnDeleteStream hookFalse infoA regState = (false, regState, [Event.deleteHook infoA.id]) ∧
    OnCreateStream cfgDefault hookNone infoA regState = (false, regState) :=
  ⟨(error_leaves_state_unchanged cfgDefault hookNone hookTrue infoA initState).1 rfl,
   (error_leaves_state_unchanged cfgDefault hookNone hookFalse infoA regState).2.1 streamA rfl rfl,
   (error_leaves_state_unchanged cfgDefault hookNone hookFalse infoA regState).2.2 rfl⟩

/-- C6: registry round-trip — immediately after a successful
`OnCreateStream` for an id, `GetStream` of that id returns exactly the
hook-created stream; immediately after a successful `OnDeleteStream`
for an id, `GetStream` of that id returns none. -/
theorem registry_roundtrip (cfg : CmafPublisher)
    (createHook : StreamInfo → Int → Option Stream) (deleteHook : StreamInfo → Bool)
    (info : StreamInfo) (sc sd : AppState) (st : Stream)
    (hc : createHook info cfg.GetThreadCount = some st)
    (hd : (OnDeleteStream deleteHook info sd).1 = true) :
    GetStream (OnCreateStream cfg createHook info sc).2 info.id = some st ∧
    GetStream (OnDeleteStream deleteHook info sd).2.1 info.id = none := by
  constructor
  · simp [OnCreateStream, hc, GetStream, find_insert_self]
  · cases hm : mapFind sd.streams info.id with
    | none => simp [OnDeleteStream, hm] at hd
    | some st' =>
      cases hh : deleteHook info with
      | false => simp [OnDeleteStream, hm, hh] at hd
      | true => simp [OnDeleteStream, hm, hh, GetStream, find_erase_self]

/-- C6 (witness): create id 7 into the empty registry; delete id 7 from
the registry holding it. -/
theorem registry_roundtrip_witness :
    GetStream (OnCreateStream cfgDefault hookB infoA initState).2 infoA.id = some streamB ∧
    GetStream (OnDeleteStream hookTrue infoA regState).2.1 infoA.id = none :=
  ⟨(registry_roundtrip cfgDefault hookB hookTrue infoA initState regState streamB rfl rfl).1,
   (registry_roundtrip cfgDefault hookB hookTrue infoA initState regState streamB rfl rfl).2⟩

/-- C7: in one worker iteration each queue is popped by at most one
item while the registry and the semaphore count are untouched; a
`sendVideo` (resp. `sendAudio`) delivery happens exactly when the
dequeued item exists, its stream and payload are both non-null and the
registry lookup by the stream's id succeeds — otherwise the frame is
discarded silently: no event, no error, no other state change, and the
producer is never notified. -/
theorem worker_frame_routing (s : AppState) :
    (WorkerIteration s).1.streams = s.streams ∧
    (WorkerIteration s).1.queue_event = s.queue_event ∧
    (WorkerIteration s).1.video_stream_queue = s.video_stream_queue.tail ∧
    (WorkerIteration s).1.audio_stream_queue = s.audio_stream_queue.tail ∧
    (WorkerIteration s).1.incoming_packet_queue = s.incoming_packet_queue.tail ∧
    (∀ t, Event.sendVideo t ∈ (WorkerIteration s).2 ↔
      ∃ d rest info p st, s.video_stream_queue = d :: rest ∧ d.stream = some info ∧
        d.media_packet = some p ∧ GetStream s info.id = some st ∧ t = st.tag) ∧
    (∀ t, Event.sendAudio t ∈ (WorkerIteration s).2 ↔
      ∃ d rest info p st, s.audio_stream_queue = d :: rest ∧ d.stream = some info ∧
        d.media_packet = some p ∧ GetStream s info.id = some st ∧ t = st.tag) := by
  refine ⟨by rw [worker_fst], by rw [worker_fst], by rw [worker_fst],
    by rw [worker_fst], by rw [worker_fst], ?_, ?_⟩
  · intro t
    rw [worker_events]
    simp only [List.mem_append]
    rw [← sendVideo_mem_videoDrain_iff s t]
    have ha := sendVideo_not_mem_audioDrain s t
    have hp := sendVideo_not_mem_packetDrain s t
    tauto
  · intro t
    rw [worker_events]
    simp only [List.mem_append]
    rw [← sendAudio_mem_audioDrain_iff s t]
    have hv := sendAudio_not_mem_videoDrain s t
    have hp := sendAudio_not_mem_packetDrain s t
    tauto

/-- C8: `Stop` always returns success; when the stop flag is already
set it changes nothing at all (no signal, no join); otherwise it sets
the flag, signals the Wake Event once, and joins the worker before
returning, so no worker execution context remains. -/
theorem stop_behavior (s : AppState) :
    (Stop s).1 = true ∧
    (s.stop_thread_flag = true → (Stop s).2 = s) ∧
    (s.stop_thread_flag = false →
      (Stop s).2 =
        { s with
            stop_thread_flag := true
            queue_event := s.queue_event + 1
            worker_contexts := 0 }) := by
  refine ⟨?_, ?_, ?_⟩
  · by_cases h : s.stop_thread_flag <;> simp [Stop, h]
  · intro h; simp [Stop, h]
  · intro h; simp [Stop, h]

/-- C8 (witness): the already-stopped state is returned unchanged; the
fresh state gets the flag set, exactly one signal, and the worker
joined. -/
theorem stop_behavior_witness :
    (Stop stoppedState).2 = stoppedState ∧
    (Stop initState).2 =
      { initState with
          stop_thread_flag := true
          queue_event := initState.queue_event + 1
          worker_contexts := 0 } :=
  ⟨(stop_behavior stoppedState).2.1 rfl, (stop_behavior initState).2.2 rfl⟩

/-- C9: every enqueue — `OnSendVideoFrame`, `OnSendAudioFrame`,
`PushIncomingPacket` — returns `true` to the producer, appends exactly
its item at the back of its queue, increments the Wake Event count by
one, and its trace is lock, push, unlock, then a single notify: the
signal comes after the lock release, and there is exactly one of it. -/
theorem enqueue_then_signal (info : StreamInfo) (p : MediaPacket)
    (sess : SessionInfo) (d : List Nat) (s : AppState) :
    ((OnSendVideoFrame info p s).1 = true ∧
      (OnSendVideoFrame info p s).2.1.video_stream_queue =
        s.video_stream_queue ++ [{ stream := some info, media_packet := some p }] ∧
      (OnSendVideoFrame info p s).2.1.queue_event = s.queue_event + 1 ∧
      (OnSendVideoFrame info p s).2.2 =
        [Event.lockAcquire, Event.pushItem, Event.lockRelease, Event.notifyEvent]) ∧
    ((OnSendAudioFrame info p s).1 = true ∧
      (OnSendAudioFrame info p s).2.1.audio_stream_queue =
        s.audio_stream_queue ++ [{ stream := some info, media_packet := some p }] ∧
      (OnSendAudioFrame info p s).2.1.queue_event = s.queue_event + 1 ∧
      (OnSendAudioFrame info p s).2.2 =
        [Event.lockAcquire, Event.pushItem, Event.lockRelease, Event.notifyEvent]) ∧
    ((PushIncomingPacket sess d s).1 = true ∧
      (PushIncomingPacket sess d s).2.1.incoming_packet_queue =
        s.incoming_packet_queue ++ [{ session_info := sess, data := d }] ∧
      (PushIncomingPacket sess d s).2.1.queue_event = s.queue_event + 1 ∧
      (PushIncomingPacket sess d s).2.2 =
        [Event.lockAcquire, Event.pushItem, Event.lockRelease, Event.notifyEvent]) :=
  ⟨⟨rfl, rfl, rfl, rfl⟩, ⟨rfl, rfl, rfl, rfl⟩, ⟨rfl, rfl, rfl, rfl⟩⟩

/-- C10: the worker-count policy is always positive — `GetThreadCount`
returns the configured count when it is greater than zero and 1
otherwise, the unconfigured default is 4, and hence the worker-count
hint `OnCreateStream` passes to the creation hook is always at least 1. -/
theorem getThreadCount_positive (c : CmafPublisher) :
    1 ≤ c.GetThreadCount ∧
    (0 < c.thread_count → c.GetThreadCount = c.thread_count) ∧
    (c.thread_count ≤ 0 → c.GetThreadCount = 1) ∧
    ({} : CmafPublisher).GetThreadCount = 4 := by
  unfold CmafPublisher.GetThreadCount
  refine ⟨?_, fun h => ?_, fun h => ?_, by decide⟩ <;> split <;> omega

/-- C10 (witness): a configured count of 2 is returned as is. -/
theorem getThreadCount_positive_witness :
    0 < (⟨3, 5, 2⟩ : CmafPublisher).thread_count ∧
    CmafPublisher.GetThreadCount ⟨3, 5, 2⟩ = 2 :=
  ⟨by decide, (getThreadCount_positive ⟨3, 5, 2⟩).2.1 (by decide)⟩

end Pub
